import Mathlib

/-!
Verification of the sqlit database-connectivity runtime.

This file gives a shallow embedding, in Lean 4, of the parts of the
`sqlit` Python code base that the specification's claims concern:

* `SQLServerAdapter.quote_identifier` and the bracket-quoting round trip
  (src/sqlit/db/adapters/mssql.py),
* `SQLServerAdapter.execute_query` with its `max_rows + 1` probe-row
  truncation (src/sqlit/db/adapters/mssql.py),
* `SQLServerAdapter._build_connection_string` / `normalize_config`
  and `ConnectionConfig.__post_init__` auth normalization
  (src/sqlit/db/adapters/mssql.py, src/sqlit/config.py),
* query-history persistence `save_query_to_history` / `load_query_history`
  with its trim-deduplication and 100-entry cap (src/sqlit/config.py),
* the CLI `cmd_query` command (src/sqlit/commands.py), and
* the cancellation error disambiguation of `QueryMixin._run_query_async`
  (src/sqlit/ui/mixins/query.py) combined with `CancellableQuery.execute`.

Python strings are modelled as Lean `String` / `List Char`; Python `None`
as `Option`; raised exceptions as explicit error values.  Uppercasing is
modelled with Lean's `Char.toUpper`, which agrees with Python on ASCII
identifiers and SQL keywords (the only characters the claims exercise).
-/

namespace Sqlit

/-! ## Identifier quoting (src/sqlit/db/adapters/mssql.py, `quote_identifier`) -/

/-- `name.replace("]", "]]")`: the replaced pattern is the single
character `]`, so Python's left-to-right non-overlapping replacement is
exactly a character-wise expansion. -/
def escapeRBrack : List Char → List Char
  | [] => []
  | c :: rest => if c = ']' then ']' :: ']' :: escapeRBrack rest else c :: escapeRBrack rest

/-- `SQLServerAdapter.quote_identifier`: escape embedded `]` by doubling,
then wrap in `[` … `]`. -/
def quote_identifier (name : String) : String :=
  ⟨'[' :: (escapeRBrack name.data ++ [']'])⟩

/-- Collapse every `]]` pair back to a single `]`, scanning left to right
(the inverse direction of `escapeRBrack`). -/
def collapseRBrack : List Char → List Char
  | [] => []
  | [c] => [c]
  | c :: d :: rest =>
      if c = ']' ∧ d = ']' then ']' :: collapseRBrack rest
      else c :: collapseRBrack (d :: rest)

/-- Strip one outer `[` … `]` pair, refusing strings not of that shape. -/
def stripBrackets (s : List Char) : Option (List Char) :=
  match s with
  | '[' :: rest =>
      match rest.reverse with
      | ']' :: mid => some mid.reverse
      | _ => none
  | _ => none

/-- Un-quoting under the same rule as `quote_identifier`: strip the outer
brackets and collapse `]]` to `]`. -/
def unquote_identifier (s : String) : Option String :=
  (stripBrackets s.data).map (fun l => ⟨collapseRBrack l⟩)

/-! ## `SQLServerAdapter.execute_query` (src/sqlit/db/adapters/mssql.py) -/

/-- A result cell: `none` models SQL NULL, `some s` the `str()` rendering
of a non-NULL value. -/
abbrev Cell := Option String

abbrev Row := List Cell

/-- The DB-API cursor state after `cursor.execute(query)`:
`description` is the column-name list (empty models a `None` description
of a non-row-producing statement), `rows` the full result stream.
`fetchmany n` returns the first `n` rows of the stream; `fetchall` all. -/
structure Cursor where
  description : List String
  rows : List Row

/-- `SQLServerAdapter.execute_query(conn, query, max_rows)`: with a row
limit it fetches `max_rows + 1` rows, reports `truncated` when more than
`max_rows` came back, and slices the probe row off before returning. -/
def execute_query (cur : Cursor) (max_rows : Option Nat) :
    List String × List Row × Bool :=
  if cur.description.isEmpty then ([], [], false)
  else
    match max_rows with
    | some n =>
        let fetched := cur.rows.take (n + 1)
        let truncated := decide (n < fetched.length)
        let rows := if truncated then fetched.take n else fetched
        (cur.description, rows, truncated)
    | none => (cur.description, cur.rows, false)

/-! ## SQL Server auth resolution (src/sqlit/config.py, src/sqlit/db/adapters/mssql.py) -/

/-- `AuthType` enum (src/sqlit/config.py). -/
inductive AuthType
  | windows
  | sql_server
  | ad_password
  | ad_interactive
  | ad_integrated
deriving DecidableEq

/-- Python `AuthType(value)`: enum lookup by value, `none` models the
`ValueError` raised for an unknown value. -/
def AuthType.ofValue : String → Option AuthType
  | "windows" => some .windows
  | "sql" => some .sql_server
  | "ad_password" => some .ad_password
  | "ad_interactive" => some .ad_interactive
  | "ad_integrated" => some .ad_integrated
  | _ => none

/-- The connection configuration as seen by `SQLServerAdapter`
(src/sqlit/db/adapters/mssql.py): direct fields plus the two
SQL-Server-specific options read through `get_option` / `set_option`
(`none` models an option that was never set). -/
structure MssqlConfig where
  server : String := ""
  port : String := "1433"
  database : String := ""
  username : String := ""
  password : String := ""
  authTypeOpt : Option String := none
  trustedOpt : Option Bool := none

/-- `SQLServerAdapter.get_auth_type`: read option `auth_type` with
default `"sql"`, fall back to SQL auth on an unrecognized value. -/
def get_auth_type (cfg : MssqlConfig) : AuthType :=
  match AuthType.ofValue (cfg.authTypeOpt.getD "sql") with
  | some a => a
  | none => .sql_server

/-- `f"{config.server},{config.port}"` when a non-default port is set
(`if config.port and config.port != "1433"`). -/
def serverWithPort (cfg : MssqlConfig) : String :=
  if cfg.port ≠ "" ∧ cfg.port ≠ "1433" then cfg.server ++ "," ++ cfg.port else cfg.server

/-- `config.database or 'master'`. -/
def databaseOrMaster (cfg : MssqlConfig) : String :=
  if cfg.database = "" then "master" else cfg.database

/-- The `base` connection-string prefix built by
`SQLServerAdapter._build_connection_string`. -/
def connectionStringBase (cfg : MssqlConfig) : String :=
  "SERVER=" ++ serverWithPort cfg ++ ";DATABASE=" ++ databaseOrMaster cfg
    ++ ";TrustServerCertificate=yes;"

/-- `SQLServerAdapter._build_connection_string`: the base followed by the
auth clauses selected by `get_auth_type`.  (The source's final
`return base + "Trusted_Connection=yes;"` fallthrough is unreachable:
the `elif` chain covers the whole enum.) -/
def build_connection_string (cfg : MssqlConfig) : String :=
  let base := connectionStringBase cfg
  match get_auth_type cfg with
  | .windows => base ++ "Trusted_Connection=yes;"
  | .sql_server =>
      base ++ "Authentication=SqlPassword;UID=" ++ cfg.username
        ++ ";PWD=" ++ cfg.password ++ ";"
  | .ad_password =>
      base ++ "Authentication=ActiveDirectoryPassword;UID=" ++ cfg.username
        ++ ";PWD=" ++ cfg.password ++ ";"
  | .ad_interactive =>
      base ++ "Authentication=ActiveDirectoryInteractive;UID=" ++ cfg.username ++ ";"
  | .ad_integrated => base ++ "Authentication=ActiveDirectoryIntegrated;"

/-- The `key=value` clause list of the connection string
`_build_connection_string` produces, in order. -/
def connectionClauses (cfg : MssqlConfig) : List (String × String) :=
  [("SERVER", serverWithPort cfg),
   ("DATABASE", databaseOrMaster cfg),
   ("TrustServerCertificate", "yes")] ++
  match get_auth_type cfg with
  | .windows => [("Trusted_Connection", "yes")]
  | .sql_server =>
      [("Authentication", "SqlPassword"), ("UID", cfg.username), ("PWD", cfg.password)]
  | .ad_password =>
      [("Authentication", "ActiveDirectoryPassword"), ("UID", cfg.username),
       ("PWD", cfg.password)]
  | .ad_interactive =>
      [("Authentication", "ActiveDirectoryInteractive"), ("UID", cfg.username)]
  | .ad_integrated => [("Authentication", "ActiveDirectoryIntegrated")]

/-- Render a clause list to the `key=value;…` connection-string syntax. -/
def renderClauses : List (String × String) → String
  | [] => ""
  | (k, v) :: rest => k ++ "=" ++ v ++ ";" ++ renderClauses rest

/-- `SQLServerAdapter.normalize_config`: default the `auth_type` option
(Python `get_option("auth_type") or "sql"` treats the empty string as
absent), default `trusted_connection` from it, then apply the
windows→sql downgrade when a username is present without trusted
connection. -/
def normalize_config (c : MssqlConfig) : MssqlConfig :=
  let auth := match c.authTypeOpt with
    | none => "sql"
    | some s => if s = "" then "sql" else s
  let c1 : MssqlConfig := { c with authTypeOpt := some auth }
  let c2 : MssqlConfig :=
    match c1.trustedOpt with
    | none => { c1 with trustedOpt := some (auth == "windows") }
    | some _ => c1
  if auth = "windows" ∧ c2.trustedOpt = some false ∧ c.username ≠ "" then
    { c2 with authTypeOpt := some "sql", trustedOpt := some false }
  else c2

/-- The persisted `ConnectionConfig` dataclass (src/sqlit/config.py). -/
structure ConnectionConfig where
  name : String
  db_type : String := "mssql"
  server : String := ""
  port : String := "1433"
  database : String := ""
  username : String := ""
  password : String := ""
  auth_type : String := "sql"
  driver : String := "ODBC Driver 18 for SQL Server"
  trusted_connection : Bool := false
  file_path : String := ""
deriving DecidableEq

/-- `ConnectionConfig.__post_init__`: empty `db_type` becomes `"mssql"`,
then the SQL-Server-only windows→sql auth downgrade is applied. -/
def ConnectionConfig.postInit (c : ConnectionConfig) : ConnectionConfig :=
  let c := if c.db_type = "" then { c with db_type := "mssql" } else c
  if c.db_type = "mssql" ∧ c.auth_type = "windows" ∧
      c.trusted_connection = false ∧ c.username ≠ "" then
    { c with auth_type := "sql" }
  else c

/-! ## Query history (src/sqlit/config.py) -/

/-- `QueryHistoryEntry` (src/sqlit/config.py). -/
structure QueryHistoryEntry where
  query : String
  timestamp : String
  connection_name : String
deriving DecidableEq

/-- A whitespace character in the sense of Python's `str.strip()` /
`str.split()` (ASCII range). -/
def isPySpace (c : Char) : Bool :=
  c.toNat == 32 || c.toNat == 9 || c.toNat == 10 || c.toNat == 13 ||
    c.toNat == 11 || c.toNat == 12

/-- Python `s.strip()`: drop leading and trailing whitespace. -/
def pyStrip (s : String) : String :=
  ⟨((s.data.dropWhile isPySpace).reverse.dropWhile isPySpace).reverse⟩

/-- The duplicate test of `save_query_to_history`: same connection and
equal whitespace-trimmed query text. -/
def histMatches (conn trimmed : String) (e : QueryHistoryEntry) : Bool :=
  e.connection_name == conn && pyStrip e.query == trimmed

/-- Update the timestamp of the first matching entry (the `for … break`
loop of `save_query_to_history`). -/
def updateFirstTimestamp (conn trimmed now : String) :
    List QueryHistoryEntry → List QueryHistoryEntry
  | [] => []
  | e :: rest =>
      if histMatches conn trimmed e then { e with timestamp := now } :: rest
      else e :: updateFirstTimestamp conn trimmed now rest

/-- The history store after the dedup phase of `save_query_to_history`:
a duplicate gets its timestamp refreshed, otherwise a new entry holding
the trimmed query is appended (Python `for … else`). -/
def dedupUpdated (all : List QueryHistoryEntry) (conn query now : String) :
    List QueryHistoryEntry :=
  let trimmed := pyStrip query
  if all.any (histMatches conn trimmed) then
    updateFirstTimestamp conn trimmed now all
  else
    all ++ [⟨trimmed, now, conn⟩]

/-- Python's stable `list.sort(key=timestamp, reverse=True)`: a stable
merge sort under the "not strictly older" relation. -/
def sortByTimestampDesc (l : List QueryHistoryEntry) : List QueryHistoryEntry :=
  l.mergeSort (fun a b => !decide (a.timestamp < b.timestamp))

/-- `save_query_to_history` (src/sqlit/config.py): dedup, split the
store into this connection's entries and the rest, sort this
connection's entries most-recent-first, cap at 100, and write back the
others followed by the capped list. -/
def save_query_to_history (all : List QueryHistoryEntry) (conn query now : String) :
    List QueryHistoryEntry :=
  let updated := dedupUpdated all conn query now
  let connection_entries := updated.filter (fun e => e.connection_name == conn)
  let other_entries := updated.filter (fun e => !(e.connection_name == conn))
  other_entries ++ (sortByTimestampDesc connection_entries).take 100

/-! ## Statement classification (src/sqlit/commands.py, `cmd_query`) -/

/-- `query.strip().upper().split()[0] if query.strip() else ""`
(src/sqlit/commands.py line 245). -/
def queryTypeOf (query : String) : String :=
  let stripped := pyStrip query
  if stripped = "" then ""
  else ⟨(stripped.data.map Char.toUpper).takeWhile (fun c => !isPySpace c)⟩

/-- The row-producing keyword tuple of `cmd_query`. -/
def selectKeywords : List String :=
  ["SELECT", "WITH", "SHOW", "DESCRIBE", "EXPLAIN", "PRAGMA"]

/-- `query_type in ("SELECT", "WITH", "SHOW", "DESCRIBE", "EXPLAIN", "PRAGMA")`. -/
def is_select_query (query : String) : Bool :=
  selectKeywords.contains (queryTypeOf query)

/-- The claim's own reading of the classifier input: the first
whitespace-delimited token of the raw query, uppercased. -/
def firstTokenUpper (query : String) : String :=
  ⟨((query.data.dropWhile isPySpace).takeWhile (fun c => !isPySpace c)).map Char.toUpper⟩

/-! ## The CLI query command (src/sqlit/commands.py, `cmd_query`) -/

/-- A raised Python exception as `cmd_query` classifies it:
`ImportError` (missing driver) versus everything else. -/
inductive PyErr where
  | importError (msg : String)
  | other (msg : String)
deriving DecidableEq

/-- The message `cmd_query` prints for a caught exception. -/
def PyErr.display : PyErr → String
  | .importError m => "Error: Required module not installed: " ++ m
  | .other m => "Error: " ++ m

/-- The legacy CLI adapter interface consumed by `cmd_query`.
Modelled from the spec: the `sqlit.adapters` module that provides
`get_adapter` and the per-engine `connect` / `execute_query` /
`execute_non_query` called from src/sqlit/commands.py is not among the
given sources.  Per the spec's adapter contract (and `cmd_query`'s own
two-value unpacking), `execute_query` yields columns and rows and
`execute_non_query` the affected row count; either may raise a driver
error. -/
structure AdapterModel where
  connect : ConnectionConfig → Except PyErr Unit
  executeQuery : String → Except PyErr (List String × List Row)
  executeNonQuery : String → Except PyErr Int

/-- Which adapter operations an invocation of `cmd_query` performed. -/
inductive AdapterCall where
  | connect
  | query (q : String)
  | nonQuery (q : String)
deriving DecidableEq

/-- The argparse namespace fields `cmd_query` reads. -/
structure QueryArgs where
  connection : String
  database : String := ""
  query : Option String := none
  file : Option String := none
  format : String := "table"

/-- The CLI environment: the saved-connection store, the file system
(`none` models `FileNotFoundError`), and the adapter registry (`none`
models `get_adapter` raising for an unknown `db_type`). -/
structure CliEnv where
  connections : List ConnectionConfig
  files : String → Option String
  adapterOf : String → Option AdapterModel

/-- Python truthiness of an optional string argument. -/
def truthy : Option String → Bool
  | none => false
  | some s => !(s == "")

/-- The first saved connection whose `name` matches (the `for … break`
lookup in `cmd_query`). -/
def findConfig (name : String) : List ConnectionConfig → Option ConnectionConfig
  | [] => none
  | c :: rest => if c.name = name then some c else findConfig name rest

/-- The `--database` override, applied only to SQL Server configs. -/
def effectiveConfig (args : QueryArgs) (c : ConnectionConfig) : ConnectionConfig :=
  if args.database ≠ "" ∧ c.db_type = "mssql" then { c with database := args.database }
  else c

/-- `sep.join(xs)`. -/
def joinWith (sep : String) : List String → String
  | [] => ""
  | [x] => x
  | x :: y :: rest => x ++ sep ++ joinWith sep (y :: rest)

/-- CSV cell rendering: `str(val) if val is not None else ""`. -/
def csvCell (c : Cell) : String := c.getD ""

/-- Table cell rendering: `str(val) if val is not None else "NULL"`. -/
def tableCell (c : Cell) : String := c.getD "NULL"

/-- The CSV output block: header row then comma-joined values. -/
def csvLines (columns : List String) (rows : List Row) : List String :=
  joinWith "," columns :: rows.map (fun r => joinWith "," (r.map csvCell))

/-- One `col_widths[i] = max(col_widths[i], len(cell))` pass over a row. -/
def updateWidths : List Nat → List String → List Nat
  | ws, [] => ws
  | [], _ => []
  | w :: ws, s :: ss => max w s.length :: updateWidths ws ss

/-- The column widths of the table format: header widths widened by
every row's cells. -/
def colWidths (columns : List String) (rows : List Row) : List Nat :=
  rows.foldl (fun ws row => updateWidths ws (row.map tableCell)) (columns.map String.length)

/-- `s.ljust(w)`. -/
def ljust (s : String) (w : Nat) : String :=
  s ++ ⟨List.replicate (w - s.length) ' '⟩

/-- The table output block: padded header, dash rule, padded rows. -/
def tableLines (columns : List String) (rows : List Row) : List String :=
  let ws := colWidths columns rows
  let header := joinWith " | " ((columns.zip ws).map (fun cw => ljust cw.1 cw.2))
  header :: (⟨List.replicate header.length '-'⟩ : String) ::
    rows.map (fun r =>
      joinWith " | " (((r.map tableCell).zip ws).map (fun cw => ljust cw.1 cw.2)))

/-- One JSON object member `"column": value` (`null` for SQL NULL);
stands in for the stdlib `json.dumps` serialization of one pair. -/
def jsonEntry (kv : String × Cell) : String :=
  "\x22" ++ kv.1 ++ "\x22: " ++ (match kv.2 with | none => "null" | some s => s)

/-- The JSON output block: one dumped array of row objects, columns
zipped with each row in order (stands in for `json.dumps`). -/
def jsonLines (columns : List String) (rows : List Row) : List String :=
  ["[" ++ joinWith ", " (rows.map (fun r =>
    "\x7b" ++ joinWith ", " ((columns.zip r).map jsonEntry) ++ "\x7d")) ++ "]"]

/-- `f"\n({len(rows)} row(s) returned)"` (modelled as its own line). -/
def rowCountLine (n : Nat) : String := "(" ++ toString n ++ " row(s) returned)"

/-- Format dispatch of `cmd_query`: csv, json, or the default table. -/
def formatOutput (format : String) (columns : List String) (rows : List Row) :
    List String :=
  if format = "csv" then csvLines columns rows
  else if format = "json" then jsonLines columns rows
  else tableLines columns rows

/-- `f"Query executed successfully. Rows affected: {affected}"`. -/
def rowsAffectedLine (n : Int) : String :=
  "Query executed successfully. Rows affected: " ++ toString n

/-- The exit code, printed lines and adapter-call trace of one
`cmd_query` invocation. -/
structure CmdResult where
  exitCode : Int
  output : List String
  calls : List AdapterCall
deriving DecidableEq

/-- `cmd_query` (src/sqlit/commands.py): resolve the connection, apply
the `--database` override, obtain the query text from `--query` or
`--file`, connect, classify row-producing statements with
`is_select_query`, execute, print, and map every handled error to exit
code 1.  `db_conn.close()` is modelled as non-failing. -/
def cmd_query (env : CliEnv) (args : QueryArgs) : CmdResult :=
  match findConfig args.connection env.connections with
  | none => ⟨1, ["Error: Connection not found."], []⟩
  | some c0 =>
    let config := effectiveConfig args c0
    match (if truthy args.query then Except.ok (args.query.getD "")
           else if truthy args.file then
             match env.files (args.file.getD "") with
             | some content => Except.ok content
             | none => Except.error "Error: File not found."
           else Except.error "Error: Either --query or --file must be provided." :
           Except String String) with
    | .error msg => ⟨1, [msg], []⟩
    | .ok query =>
      match env.adapterOf config.db_type with
      | none => ⟨1, ["Error: unknown database type"], []⟩
      | some adapter =>
        match adapter.connect config with
        | .error e => ⟨1, [e.display], [.connect]⟩
        | .ok _ =>
          if is_select_query query then
            match adapter.executeQuery query with
            | .error e => ⟨1, [e.display], [.connect, .query query]⟩
            | .ok (columns, rows) =>
              if columns ≠ [] then
                ⟨0, formatOutput args.format columns rows ++ [rowCountLine rows.length],
                 [.connect, .query query]⟩
              else
                match adapter.executeNonQuery query with
                | .error e => ⟨1, [e.display], [.connect, .query query, .nonQuery query]⟩
                | .ok affected =>
                    ⟨0, [rowsAffectedLine affected],
                     [.connect, .query query, .nonQuery query]⟩
          else
            match adapter.executeNonQuery query with
            | .error e => ⟨1, [e.display], [.connect, .nonQuery query]⟩
            | .ok affected => ⟨0, [rowsAffectedLine affected], [.connect, .nonQuery query]⟩

/-! ## Persistence loaders (src/sqlit/config.py) -/

/-- The exceptions the loaders in src/sqlit/config.py catch. -/
inductive PyExc where
  | jsonDecodeError
  | typeError
  | keyError
deriving DecidableEq

/-- One on-disk JSON store: an absent file, a file whose parse (or
record construction) raises, or successfully parsed content. -/
inductive StoreFile (α : Type) where
  | missing
  | malformed
  | parsed (data : α)

/-- `except (json.JSONDecodeError, TypeError): return default`. -/
def catchJsonTypeErr {α : Type} (body : Except PyExc α) (default : α) : Except PyExc α :=
  match body with
  | .error .jsonDecodeError => .ok default
  | .error .typeError => .ok default
  | e => e

/-- `except (json.JSONDecodeError, TypeError, KeyError): return []`. -/
def catchHistErr {α : Type} (body : Except PyExc α) (default : α) : Except PyExc α :=
  match body with
  | .error .jsonDecodeError => .ok default
  | .error .typeError => .ok default
  | .error .keyError => .ok default
  | e => e

/-- `load_settings`: missing file defaults to an empty dict; parse
errors are caught to the same default. -/
def load_settings (st : StoreFile (List (String × String))) :
    Except PyExc (List (String × String)) :=
  match st with
  | .missing => .ok []
  | .malformed => catchJsonTypeErr (Except.error .jsonDecodeError) []
  | .parsed d => catchJsonTypeErr (Except.ok d) []

/-- `load_connections`: missing file defaults to no connections; JSON
or `ConnectionConfig(**conn)` errors are caught to the same default. -/
def load_connections (st : StoreFile (List ConnectionConfig)) :
    Except PyExc (List ConnectionConfig) :=
  match st with
  | .missing => .ok []
  | .malformed => catchJsonTypeErr (Except.error .jsonDecodeError) []
  | .parsed d => catchJsonTypeErr (Except.ok d) []

/-- A raw history-file record: each required key possibly absent. -/
structure RawHistEntry where
  query? : Option String
  timestamp? : Option String
  connection_name? : Option String

/-- `QueryHistoryEntry.from_dict`: `KeyError` when a required key is
missing. -/
def entryFromDict (d : RawHistEntry) : Except PyExc QueryHistoryEntry :=
  match d.query?, d.timestamp?, d.connection_name? with
  | some q, some t, some c => .ok ⟨q, t, c⟩
  | _, _, _ => .error .keyError

/-- `entry.get("connection_name") == connection_name` (a record without
the key compares unequal to every name). -/
def rawConnMatches (name : String) (d : RawHistEntry) : Bool :=
  match d.connection_name? with
  | some c => c == name
  | none => false

/-- The list comprehension of `load_query_history`: convert each
matching record, propagating the first raised `KeyError`. -/
def mapEntries : List RawHistEntry → Except PyExc (List QueryHistoryEntry)
  | [] => .ok []
  | d :: rest =>
      match entryFromDict d with
      | .error e => .error e
      | .ok v =>
          match mapEntries rest with
          | .error e => .error e
          | .ok vs => .ok (v :: vs)

/-- `load_query_history`: filter the store to one connection, convert,
sort most-recent-first; missing file or any caught error yields `[]`. -/
def load_query_history (st : StoreFile (List RawHistEntry)) (name : String) :
    Except PyExc (List QueryHistoryEntry) :=
  match st with
  | .missing => .ok []
  | .malformed => catchHistErr (Except.error .jsonDecodeError) []
  | .parsed data =>
      catchHistErr
        (match mapEntries (data.filter (rawConnMatches name)) with
         | .error e => .error e
         | .ok entries => .ok (sortByTimestampDesc entries)) []

/-! ## Cancellation disambiguation
(src/sqlit/ui/mixins/query.py, `QueryMixin._run_query_async`) -/

/-- A Python exception as the mixin's handlers distinguish it:
`RuntimeError` has its own `except` clause before the generic one. -/
inductive PyException where
  | runtimeError (msg : String)
  | otherError (msg : String)
deriving DecidableEq

/-- Outcome of the blocking driver call inside `CancellableQuery.execute`. -/
inductive DriverOutcome where
  | success
  | raises (e : PyException)

/-- Terminal behaviour of `CancellableQuery.execute` toward its caller. -/
inductive ExecOutcome where
  | completed
  | cancelled
  | failed (e : PyException)

/-- Modelled from the spec: `CancellableQuery.execute`
(`sqlit/services.py` is not among the given sources).  Per §4.3 the
flag is checked before classifying a raised error: if `is_cancelled`
is set the error is swallowed as a clean cancellation, otherwise the
original exception propagates as a genuine failure. -/
def cancellableExecute (isCancelled : Bool) (driver : DriverOutcome) : ExecOutcome :=
  match driver with
  | .success => .completed
  | .raises e => if isCancelled then .cancelled else .failed e

/-- What `_run_query_async` does on the UI after the worker returns. -/
inductive DisplayAction where
  | results
  | errorShown (msg : String)
  | nothing
deriving DecidableEq

/-- `str.lower()` (ASCII). -/
def pyLower (s : String) : String := ⟨s.data.map Char.toLower⟩

/-- Whether `pat` starts `s`. -/
def leadsWith : List Char → List Char → Bool
  | [], _ => true
  | _ :: _, [] => false
  | p :: ps, c :: cs => p == c && leadsWith ps cs

/-- Whether `pat` occurs contiguously in `s` (Python `pat in s`). -/
def containsSeq (pat : List Char) : List Char → Bool
  | [] => leadsWith pat []
  | c :: rest => leadsWith pat (c :: rest) || containsSeq pat rest

/-- Python `pat in s` on strings. -/
def strContains (s pat : String) : Bool := containsSeq pat.data s.data

/-- The two `except` clauses of `_run_query_async` (lines 159-172):
a `RuntimeError` whose lowercased message contains `"cancelled"` is
passed over; any other `RuntimeError` is displayed; a generic
exception is displayed only when the cancellation flag is unset. -/
def mixinHandleError (isCancelled : Bool) (e : PyException) : DisplayAction :=
  match e with
  | .runtimeError msg =>
      if strContains (pyLower msg) "cancelled" then .nothing
      else .errorShown msg
  | .otherError msg =>
      if !isCancelled then .errorShown msg else .nothing

/-- The combined flow for one query execution: the worker runs
`cancellableExecute`; a cancellation surfaces to the mixin as
`RuntimeError("Query was cancelled")`, a failure re-raises the original
exception into the mixin's handlers. -/
def runQueryErrorHandling (isCancelled : Bool) (driver : DriverOutcome) :
    DisplayAction :=
  match cancellableExecute isCancelled driver with
  | .completed => .results
  | .cancelled => mixinHandleError isCancelled (.runtimeError "Query was cancelled")
  | .failed e => mixinHandleError isCancelled e

end Sqlit

/-! # Theorems -/

namespace Sqlit

lemma collapse_two_rb (l : List Char) :
    collapseRBrack (']' :: ']' :: l) = ']' :: collapseRBrack l := by
  simp [collapseRBrack]

lemma collapse_cons_ne {c : Char} (h : c ≠ ']') (l : List Char) :
    collapseRBrack (c :: l) = c :: collapseRBrack l := by
  cases l with
  | nil => simp [collapseRBrack]
  | cons d ds => simp [collapseRBrack, h]

lemma collapse_escape : ∀ l : List Char, collapseRBrack (escapeRBrack l) = l := by
  intro l
  induction l with
  | nil => rfl
  | cons c rest ih =>
    by_cases h : c = ']'
    · subst h
      rw [show escapeRBrack (']' :: rest) = ']' :: ']' :: escapeRBrack rest by
            simp [escapeRBrack],
          collapse_two_rb, ih]
    · rw [show escapeRBrack (c :: rest) = c :: escapeRBrack rest by
            simp [escapeRBrack, h],
          collapse_cons_ne h, ih]

/-- **C8.** For every identifier `name`, `quote_identifier` wraps `name`
in brackets with every embedded `]` doubled to `]]`, and un-quoting under
the same rule (strip the outer brackets, collapse `]]` to `]`) reproduces
the original identifier exactly — including names containing `]`. -/
theorem quote_identifier_roundtrip (name : String) :
    unquote_identifier (quote_identifier name) = some name := by
  unfold unquote_identifier quote_identifier stripBrackets
  simp [collapse_escape]

lemma execute_query_some_pos (cur : Cursor) (n : Nat)
    (hdesc : cur.description.isEmpty = false) (h : n < cur.rows.length) :
    execute_query cur (some n) = (cur.description, cur.rows.take n, true) := by
  have h1 : (n + 1) ⊓ cur.rows.length = n + 1 := by omega
  simp [execute_query, hdesc, List.length_take, h1, List.take_take, Nat.lt_succ_self]

lemma execute_query_some_le (cur : Cursor) (n : Nat)
    (hdesc : cur.description.isEmpty = false) (h : cur.rows.length ≤ n) :
    execute_query cur (some n) = (cur.description, cur.rows, false) := by
  have h1 : (n + 1) ⊓ cur.rows.length = cur.rows.length := by omega
  have h2 : ¬ n < cur.rows.length := by omega
  simp [execute_query, hdesc, List.length_take, h1, h2,
    List.take_of_length_le (show cur.rows.length ≤ n + 1 by omega)]

/-- **C2.** `execute_query` with `max_rows = N` on a row-producing cursor
fetches at most `N + 1` rows: when the cursor yields more than `N` rows
it returns exactly the first `N` with `truncated = true`, otherwise all
rows with `truncated = false`; the returned list never exceeds `N` rows,
so the probe row is never part of it. -/
theorem execute_query_truncation (cur : Cursor) (n : Nat)
    (hdesc : cur.description ≠ []) :
    (execute_query cur (some n)).2.1.length ≤ n ∧
    (n < cur.rows.length →
      (execute_query cur (some n)).2.1 = cur.rows.take n ∧
      (execute_query cur (some n)).2.2 = true) ∧
    (cur.rows.length ≤ n →
      (execute_query cur (some n)).2.1 = cur.rows ∧
      (execute_query cur (some n)).2.2 = false) := by
  have hne : cur.description.isEmpty = false := by
    simpa [List.isEmpty_iff] using hdesc
  by_cases h : n < cur.rows.length
  · rw [execute_query_some_pos cur n hne h]
    refine ⟨by simp [List.length_take], fun _ => ⟨rfl, rfl⟩, fun h' => absurd h (by omega)⟩
  · rw [execute_query_some_le cur n hne (by omega)]
    exact ⟨by simpa using (by omega : cur.rows.length ≤ n),
      fun h' => absurd h' h, fun _ => ⟨rfl, rfl⟩⟩

/-- Witness for `execute_query_truncation` at a concrete cursor with
3 rows and `max_rows = 2`. -/
theorem execute_query_truncation_witness :
    (Cursor.mk ["id"] [[some "1"], [some "2"], [some "3"]]).description ≠ [] ∧
    (execute_query (Cursor.mk ["id"] [[some "1"], [some "2"], [some "3"]]) (some 2)).2.1.length ≤ 2 := by
  refine ⟨by decide, ?_⟩
  exact (execute_query_truncation
    (Cursor.mk ["id"] [[some "1"], [some "2"], [some "3"]]) 2 (by decide)).1

lemma lit_merge (a b c : String) (h : a ++ b = c) :
    ∀ x : String, a ++ (b ++ x) = c ++ x := by
  intro x; rw [← String.append_assoc, h]

lemma build_eq_render (cfg : MssqlConfig) :
    build_connection_string cfg = renderClauses (connectionClauses cfg) := by
  have p1 : (";TrustServerCertificate=yes;" ++ "Trusted_Connection=yes;" : String)
      = ";TrustServerCertificate=yes;Trusted_Connection=yes;" := rfl
  have p2 : (";TrustServerCertificate=yes;Trusted_Connection=yes" ++ ";" : String)
      = ";TrustServerCertificate=yes;Trusted_Connection=yes;" := rfl
  have p3 : ("ActiveDirectoryIntegrated" ++ ";" : String) = "ActiveDirectoryIntegrated;" := rfl
  have p4 : (";TrustServerCertificate=yes;Authentication=" ++ "ActiveDirectoryIntegrated;" : String)
      = ";TrustServerCertificate=yes;Authentication=ActiveDirectoryIntegrated;" := rfl
  have p5 : (";TrustServerCertificate=yes;" ++ "Authentication=ActiveDirectoryIntegrated;" : String)
      = ";TrustServerCertificate=yes;Authentication=ActiveDirectoryIntegrated;" := rfl
  cases h : get_auth_type cfg <;>
    simp only [build_connection_string, connectionClauses, connectionStringBase, h,
      renderClauses, List.cons_append, List.nil_append, String.append_assoc,
      String.append_empty,
      lit_merge "SERVER" "=" "SERVER=" rfl,
      lit_merge ";" "DATABASE" ";DATABASE" rfl,
      lit_merge ";DATABASE" "=" ";DATABASE=" rfl,
      lit_merge ";" "TrustServerCertificate" ";TrustServerCertificate" rfl,
      lit_merge ";TrustServerCertificate" "=" ";TrustServerCertificate=" rfl,
      lit_merge ";TrustServerCertificate=" "yes" ";TrustServerCertificate=yes" rfl,
      lit_merge ";TrustServerCertificate=yes" ";" ";TrustServerCertificate=yes;" rfl,
      lit_merge ";TrustServerCertificate=yes;" "Trusted_Connection"
        ";TrustServerCertificate=yes;Trusted_Connection" rfl,
      lit_merge ";TrustServerCertificate=yes;Trusted_Connection" "="
        ";TrustServerCertificate=yes;Trusted_Connection=" rfl,
      lit_merge ";TrustServerCertificate=yes;Trusted_Connection=" "yes"
        ";TrustServerCertificate=yes;Trusted_Connection=yes" rfl,
      lit_merge ";TrustServerCertificate=yes;" "Authentication"
        ";TrustServerCertificate=yes;Authentication" rfl,
      lit_merge ";TrustServerCertificate=yes;Authentication" "="
        ";TrustServerCertificate=yes;Authentication=" rfl,
      lit_merge ";TrustServerCertificate=yes;Authentication=" "SqlPassword"
        ";TrustServerCertificate=yes;Authentication=SqlPassword" rfl,
      lit_merge ";TrustServerCertificate=yes;Authentication=SqlPassword" ";"
        ";TrustServerCertificate=yes;Authentication=SqlPassword;" rfl,
      lit_merge ";TrustServerCertificate=yes;Authentication=SqlPassword;" "UID"
        ";TrustServerCertificate=yes;Authentication=SqlPassword;UID" rfl,
      lit_merge ";TrustServerCertificate=yes;Authentication=SqlPassword;UID" "="
        ";TrustServerCertificate=yes;Authentication=SqlPassword;UID=" rfl,
      lit_merge ";TrustServerCertificate=yes;" "Authentication=SqlPassword;UID="
        ";TrustServerCertificate=yes;Authentication=SqlPassword;UID=" rfl,
      lit_merge ";TrustServerCertificate=yes;Authentication=" "ActiveDirectoryPassword"
        ";TrustServerCertificate=yes;Authentication=ActiveDirectoryPassword" rfl,
      lit_merge ";TrustServerCertificate=yes;Authentication=ActiveDirectoryPassword" ";"
        ";TrustServerCertificate=yes;Authentication=ActiveDirectoryPassword;" rfl,
      lit_merge ";TrustServerCertificate=yes;Authentication=ActiveDirectoryPassword;" "UID"
        ";TrustServerCertificate=yes;Authentication=ActiveDirectoryPassword;UID" rfl,
      lit_merge ";TrustServerCertificate=yes;Authentication=ActiveDirectoryPassword;UID" "="
        ";TrustServerCertificate=yes;Authentication=ActiveDirectoryPassword;UID=" rfl,
      lit_merge ";TrustServerCertificate=yes;" "Authentication=ActiveDirectoryPassword;UID="
        ";TrustServerCertificate=yes;Authentication=ActiveDirectoryPassword;UID=" rfl,
      lit_merge ";TrustServerCertificate=yes;Authentication=" "ActiveDirectoryInteractive"
        ";TrustServerCertificate=yes;Authentication=ActiveDirectoryInteractive" rfl,
      lit_merge ";TrustServerCertificate=yes;Authentication=ActiveDirectoryInteractive" ";"
        ";TrustServerCertificate=yes;Authentication=ActiveDirectoryInteractive;" rfl,
      lit_merge ";TrustServerCertificate=yes;Authentication=ActiveDirectoryInteractive;" "UID"
        ";TrustServerCertificate=yes;Authentication=ActiveDirectoryInteractive;UID" rfl,
      lit_merge ";TrustServerCertificate=yes;Authentication=ActiveDirectoryInteractive;UID" "="
        ";TrustServerCertificate=yes;Authentication=ActiveDirectoryInteractive;UID=" rfl,
      lit_merge ";TrustServerCertificate=yes;" "Authentication=ActiveDirectoryInteractive;UID="
        ";TrustServerCertificate=yes;Authentication=ActiveDirectoryInteractive;UID=" rfl,
      lit_merge ";" "PWD" ";PWD" rfl,
      lit_merge ";PWD" "=" ";PWD=" rfl,
      p1, p2, p3, p4, p5]

/-- **C6.** For every SQL Server config, the built connection string is
exactly the rendering of its clause list, and that clause list carries
`Trusted_Connection=yes` with no `UID`/`PWD` clause for `windows` auth,
`UID` and `PWD` clauses for `sql` and `ad_password`, a `UID` clause but
no `PWD` clause for `ad_interactive`, and neither for `ad_integrated`. -/
theorem build_connection_string_auth (cfg : MssqlConfig) :
    build_connection_string cfg = renderClauses (connectionClauses cfg) ∧
    (get_auth_type cfg = .windows →
      ("Trusted_Connection", "yes") ∈ connectionClauses cfg ∧
      "UID" ∉ (connectionClauses cfg).map Prod.fst ∧
      "PWD" ∉ (connectionClauses cfg).map Prod.fst) ∧
    ((get_auth_type cfg = .sql_server ∨ get_auth_type cfg = .ad_password) →
      ("UID", cfg.username) ∈ connectionClauses cfg ∧
      ("PWD", cfg.password) ∈ connectionClauses cfg) ∧
    (get_auth_type cfg = .ad_interactive →
      ("UID", cfg.username) ∈ connectionClauses cfg ∧
      "PWD" ∉ (connectionClauses cfg).map Prod.fst) ∧
    (get_auth_type cfg = .ad_integrated →
      "UID" ∉ (connectionClauses cfg).map Prod.fst ∧
      "PWD" ∉ (connectionClauses cfg).map Prod.fst) := by
  refine ⟨build_eq_render cfg, ?_, ?_, ?_, ?_⟩
  · intro h
    refine ⟨?_, ?_, ?_⟩ <;> simp [connectionClauses, h]
  · rintro (h | h) <;>
      exact ⟨by simp [connectionClauses, h], by simp [connectionClauses, h]⟩
  · intro h
    exact ⟨by simp [connectionClauses, h], by simp [connectionClauses, h]⟩
  · intro h
    constructor <;> simp [connectionClauses, h]

/-- Witness for `build_connection_string_auth` at a concrete windows-auth
config. -/
theorem build_connection_string_auth_witness :
    ("Trusted_Connection", "yes") ∈
      connectionClauses { username := "u", authTypeOpt := some "windows" } ∧
    "UID" ∉ (connectionClauses
      { username := "u", authTypeOpt := some "windows" }).map Prod.fst :=
  let c : MssqlConfig := { username := "u", authTypeOpt := some "windows" }
  ⟨((build_connection_string_auth c).2.1 rfl).1,
   ((build_connection_string_auth c).2.1 rfl).2.1⟩

/-- **C7.** The windows→sql silent-downgrade rule: `normalize_config`
(and the persisted config's `__post_init__`) rewrite `auth_type` to
`sql` exactly when `auth_type = windows`, `trusted_connection` is false
and a username is present; otherwise the (effective) auth type is left
unchanged. -/
theorem auth_windows_downgrade :
    (∀ c : MssqlConfig,
      c.authTypeOpt = some "windows" → c.trustedOpt = some false → c.username ≠ "" →
        (normalize_config c).authTypeOpt = some "sql") ∧
    (∀ (c : MssqlConfig) (s : String),
      c.authTypeOpt = some s → s ≠ "" →
      ¬(s = "windows" ∧ c.trustedOpt = some false ∧ c.username ≠ "") →
        (normalize_config c).authTypeOpt = some s) ∧
    (∀ c : MssqlConfig,
      ¬(c.authTypeOpt = some "windows" ∧ c.trustedOpt = some false ∧ c.username ≠ "") →
        get_auth_type (normalize_config c) = get_auth_type c) ∧
    (∀ c : ConnectionConfig,
      c.db_type = "mssql" → c.auth_type = "windows" → c.trusted_connection = false →
      c.username ≠ "" → c.postInit.auth_type = "sql") ∧
    (∀ c : ConnectionConfig,
      ¬(c.auth_type = "windows" ∧ c.trusted_connection = false ∧ c.username ≠ "") →
        c.postInit.auth_type = c.auth_type) := by
  refine ⟨?_, ?_, ?_, ?_, ?_⟩
  · intro c h1 h2 h3
    simp [normalize_config, h1, h2, h3]
  · intro c s h1 hne hnm
    by_cases hw : s = "windows"
    · subst hw
      rcases Option.eq_none_or_eq_some c.trustedOpt with ht | ⟨b, ht⟩
      · simp [normalize_config, h1, ht]
      · cases b
        · by_cases hu : c.username = ""
          · simp [normalize_config, h1, ht, hu]
          · exact absurd ⟨rfl, ht, hu⟩ hnm
        · simp [normalize_config, h1, ht]
    · simp [normalize_config, h1, hne, hw]
      rcases Option.eq_none_or_eq_some c.trustedOpt with ht | ⟨b, ht⟩ <;>
        simp [ht, hw]
  · intro c hnm
    rcases Option.eq_none_or_eq_some c.authTypeOpt with ha | ⟨s, ha⟩
    · simp [normalize_config, get_auth_type, ha]
      rcases Option.eq_none_or_eq_some c.trustedOpt with ht | ⟨b, ht⟩ <;>
        simp [ht, AuthType.ofValue]
    · by_cases hs : s = ""
      · subst hs
        simp [normalize_config, get_auth_type, ha]
        rcases Option.eq_none_or_eq_some c.trustedOpt with ht | ⟨b, ht⟩ <;>
          simp [ht, AuthType.ofValue]
      · by_cases hw : s = "windows"
        · subst hw
          rcases Option.eq_none_or_eq_some c.trustedOpt with ht | ⟨b, ht⟩
          · simp [normalize_config, get_auth_type, ha, ht]
          · cases b
            · by_cases hu : c.username = ""
              · simp [normalize_config, get_auth_type, ha, ht, hu]
              · exact absurd ⟨ha, ht, hu⟩ hnm
            · simp [normalize_config, get_auth_type, ha, ht]
        · rcases Option.eq_none_or_eq_some c.trustedOpt with ht | ⟨b, ht⟩ <;>
            simp [normalize_config, get_auth_type, ha, ht, hs, hw]
  · intro c hdb ha ht hu
    simp [ConnectionConfig.postInit, hdb, ha, ht, hu]
  · intro c hnm
    have hx : ¬(c.auth_type = "windows" ∧ c.trusted_connection = false ∧
        ¬c.username = "") := fun h => hnm ⟨h.1, h.2.1, h.2.2⟩
    by_cases hdb : c.db_type = "" <;>
      simp [ConnectionConfig.postInit, hdb, hx]

/-- Witness for `auth_windows_downgrade` at concrete configs. -/
theorem auth_windows_downgrade_witness :
    (normalize_config
      { username := "u", authTypeOpt := some "windows",
        trustedOpt := some false }).authTypeOpt = some "sql" ∧
    (ConnectionConfig.postInit
      { name := "c", auth_type := "windows", trusted_connection := false,
        username := "u" }).auth_type = "sql" :=
  ⟨auth_windows_downgrade.1 _ rfl rfl (by decide),
   auth_windows_downgrade.2.2.2.1 _ rfl rfl rfl (by decide)⟩

lemma length_updateFirstTimestamp (conn t n : String) :
    ∀ l, (updateFirstTimestamp conn t n l).length = l.length := by
  intro l
  induction l with
  | nil => rfl
  | cons e rest ih =>
    by_cases h : histMatches conn t e <;> simp [updateFirstTimestamp, h, ih]

lemma histMatches_connection {conn t : String} {e : QueryHistoryEntry}
    (h : histMatches conn t e = true) : (e.connection_name == conn) = true := by
  have := h
  simp only [histMatches, Bool.and_eq_true] at this
  exact this.1

lemma filter_not_updateFirst (conn t n : String) :
    ∀ l, (updateFirstTimestamp conn t n l).filter
        (fun e => !(e.connection_name == conn)) =
      l.filter (fun e => !(e.connection_name == conn)) := by
  intro l
  induction l with
  | nil => rfl
  | cons e rest ih =>
    by_cases h : histMatches conn t e
    · have hc := histMatches_connection h
      simp [updateFirstTimestamp, h, List.filter_cons, hc]
    · by_cases hp : (e.connection_name == conn) = true <;>
        simp [updateFirstTimestamp, h, List.filter_cons, hp, ih]

lemma length_filter_updateFirst (conn t n : String) :
    ∀ l, ((updateFirstTimestamp conn t n l).filter
        (fun e => e.connection_name == conn)).length =
      (l.filter (fun e => e.connection_name == conn)).length := by
  intro l
  induction l with
  | nil => rfl
  | cons e rest ih =>
    by_cases h : histMatches conn t e
    · have hc := histMatches_connection h
      simp [updateFirstTimestamp, h, List.filter_cons, hc]
    · by_cases hp : (e.connection_name == conn) = true <;>
        simp [updateFirstTimestamp, h, List.filter_cons, hp, ih]

lemma sortByTimestampDesc_perm (l : List QueryHistoryEntry) :
    (sortByTimestampDesc l).Perm l :=
  List.mergeSort_perm l _

lemma sortByTimestampDesc_pairwise (l : List QueryHistoryEntry) :
    List.Pairwise (fun a b : QueryHistoryEntry => ¬(a.timestamp < b.timestamp))
      (sortByTimestampDesc l) := by
  have htrans : ∀ a b c : QueryHistoryEntry,
      (!decide (a.timestamp < b.timestamp)) = true →
      (!decide (b.timestamp < c.timestamp)) = true →
      (!decide (a.timestamp < c.timestamp)) = true := by
    intro a b c hab hbc
    simp only [Bool.not_eq_true', decide_eq_false_iff_not, not_lt] at hab hbc ⊢
    exact le_trans hbc hab
  have htotal : ∀ a b : QueryHistoryEntry,
      ((!decide (a.timestamp < b.timestamp)) ||
        (!decide (b.timestamp < a.timestamp))) = true := by
    intro a b
    simp only [Bool.or_eq_true, Bool.not_eq_true', decide_eq_false_iff_not, not_lt]
    exact le_total b.timestamp a.timestamp
  have := List.sorted_mergeSort htrans htotal l
  refine this.imp ?_
  intro a b hab
  simpa only [Bool.not_eq_true', decide_eq_false_iff_not] using hab

lemma split_cap_perm (l : List QueryHistoryEntry) (conn : String)
    (h : (l.filter (fun e => e.connection_name == conn)).length ≤ 100) :
    (l.filter (fun e => !(e.connection_name == conn)) ++
      (sortByTimestampDesc
        (l.filter (fun e => e.connection_name == conn))).take 100).Perm l := by
  have hperm := sortByTimestampDesc_perm (l.filter (fun e => e.connection_name == conn))
  have hlen : (sortByTimestampDesc
      (l.filter (fun e => e.connection_name == conn))).length ≤ 100 := by
    rw [hperm.length_eq]; exact h
  rw [List.take_of_length_le hlen]
  exact (List.Perm.append_left _ hperm).trans
    (List.perm_append_comm.trans (List.filter_append_perm _ l))

/-- **C4.** Saving a query whose trimmed text duplicates an entry of the
same connection (and that connection holds at most the 100-entry cap)
permutes the store to "first matching entry's timestamp replaced",
leaving the entry count unchanged; saving a new trimmed query (below
the cap) permutes the store to "one new entry appended". -/
theorem save_query_to_history_dedup (all : List QueryHistoryEntry)
    (conn query now : String) :
    (all.any (histMatches conn (pyStrip query)) = true →
      (all.filter (fun e => e.connection_name == conn)).length ≤ 100 →
      (save_query_to_history all conn query now).Perm
          (updateFirstTimestamp conn (pyStrip query) now all) ∧
      (save_query_to_history all conn query now).length = all.length) ∧
    (all.any (histMatches conn (pyStrip query)) = false →
      (all.filter (fun e => e.connection_name == conn)).length < 100 →
      (save_query_to_history all conn query now).Perm
          (all ++ [QueryHistoryEntry.mk (pyStrip query) now conn])) := by
  constructor
  · intro hm hc
    have hu : dedupUpdated all conn query now =
        updateFirstTimestamp conn (pyStrip query) now all := by
      simp [dedupUpdated, hm]
    have hcount : ((updateFirstTimestamp conn (pyStrip query) now all).filter
        (fun e => e.connection_name == conn)).length ≤ 100 := by
      rw [length_filter_updateFirst]; exact hc
    have hs : save_query_to_history all conn query now =
        (updateFirstTimestamp conn (pyStrip query) now all).filter
          (fun e => !(e.connection_name == conn)) ++
        (sortByTimestampDesc ((updateFirstTimestamp conn (pyStrip query) now all).filter
          (fun e => e.connection_name == conn))).take 100 := by
      simp only [save_query_to_history, hu]
    rw [hs]
    refine ⟨split_cap_perm _ conn hcount, ?_⟩
    rw [(split_cap_perm _ conn hcount).length_eq, length_updateFirstTimestamp]
  · intro hm hc
    have hu : dedupUpdated all conn query now =
        all ++ [QueryHistoryEntry.mk (pyStrip query) now conn] := by
      simp [dedupUpdated, hm]
    have hpnew : ((QueryHistoryEntry.mk (pyStrip query) now conn).connection_name
        == conn) = true := by simp
    have hcount : (((all ++ [QueryHistoryEntry.mk (pyStrip query) now conn]).filter
        (fun e => e.connection_name == conn))).length ≤ 100 := by
      rw [List.filter_append, List.length_append]
      have h1 : (List.filter (fun e => e.connection_name == conn)
          [QueryHistoryEntry.mk (pyStrip query) now conn]).length ≤ 1 :=
        List.length_filter_le _ _
      omega
    have hs : save_query_to_history all conn query now =
        (all ++ [QueryHistoryEntry.mk (pyStrip query) now conn]).filter
          (fun e => !(e.connection_name == conn)) ++
        (sortByTimestampDesc ((all ++ [QueryHistoryEntry.mk (pyStrip query) now conn]).filter
          (fun e => e.connection_name == conn))).take 100 := by
      simp only [save_query_to_history, hu]
    rw [hs]
    exact split_cap_perm _ conn hcount

/-- Witness for `save_query_to_history_dedup`: a duplicate save on a
one-entry store, and a fresh save on the same store. -/
theorem save_query_to_history_dedup_witness :
    (save_query_to_history [QueryHistoryEntry.mk "SELECT 1" "2024-01-01" "c"] "c" " SELECT 1 "
        "2024-01-02").Perm
      (updateFirstTimestamp "c" (pyStrip " SELECT 1 ") "2024-01-02"
        [QueryHistoryEntry.mk "SELECT 1" "2024-01-01" "c"]) ∧
    (save_query_to_history [QueryHistoryEntry.mk "SELECT 1" "2024-01-01" "c"] "c" "SELECT 2"
        "2024-01-02").Perm
      ([QueryHistoryEntry.mk "SELECT 1" "2024-01-01" "c"] ++ [QueryHistoryEntry.mk (pyStrip "SELECT 2") "2024-01-02" "c"]) :=
  ⟨((save_query_to_history_dedup [QueryHistoryEntry.mk "SELECT 1" "2024-01-01" "c"] "c" " SELECT 1 "
      "2024-01-02").1 (by decide) (by decide)).1,
   (save_query_to_history_dedup [QueryHistoryEntry.mk "SELECT 1" "2024-01-01" "c"] "c" "SELECT 2"
      "2024-01-02").2 (by decide) (by decide)⟩

/-- **C5.** After every `save_query_to_history` call the store holds at
most 100 entries for the saved connection; every entry it drops (the
sorted tail past 100) is no more recent than every kept entry of that
connection; and the entries of every other connection are exactly
unchanged. -/
theorem save_query_to_history_cap (all : List QueryHistoryEntry)
    (conn query now : String) :
    ((save_query_to_history all conn query now).filter
        (fun e => e.connection_name == conn)).length ≤ 100 ∧
    (save_query_to_history all conn query now).filter
        (fun e => !(e.connection_name == conn)) =
      all.filter (fun e => !(e.connection_name == conn)) ∧
    List.Pairwise (fun a b : QueryHistoryEntry => ¬(a.timestamp < b.timestamp))
      ((save_query_to_history all conn query now).filter
          (fun e => e.connection_name == conn) ++
        (sortByTimestampDesc ((dedupUpdated all conn query now).filter
            (fun e => e.connection_name == conn))).drop 100) := by
  have hs : save_query_to_history all conn query now =
      (dedupUpdated all conn query now).filter
        (fun e => !(e.connection_name == conn)) ++
      (sortByTimestampDesc ((dedupUpdated all conn query now).filter
        (fun e => e.connection_name == conn))).take 100 :=
    rfl
  have hmem : ∀ e ∈ sortByTimestampDesc ((dedupUpdated all conn query now).filter
      (fun e => e.connection_name == conn)), (e.connection_name == conn) = true := by
    intro e he
    have := (sortByTimestampDesc_perm _).mem_iff.mp he
    exact (List.mem_filter.mp this).2
  have hfp : (save_query_to_history all conn query now).filter
      (fun e => e.connection_name == conn) =
      (sortByTimestampDesc ((dedupUpdated all conn query now).filter
        (fun e => e.connection_name == conn))).take 100 := by
    rw [hs, List.filter_append]
    rw [List.filter_filter]
    have h1 : ((dedupUpdated all conn query now).filter
        (fun a => (a.connection_name == conn) && !(a.connection_name == conn))) = [] := by
      rw [List.filter_eq_nil_iff]
      intro a _
      simp
    rw [h1, List.nil_append, List.filter_eq_self.mpr]
    intro a ha
    exact hmem a (List.take_subset _ _ ha)
  refine ⟨?_, ?_, ?_⟩
  · rw [hfp, List.length_take]
    omega
  · rw [hs, List.filter_append, List.filter_filter]
    have h1 : ((sortByTimestampDesc ((dedupUpdated all conn query now).filter
        (fun e => e.connection_name == conn))).take 100).filter
        (fun e => !(e.connection_name == conn)) = [] := by
      rw [List.filter_eq_nil_iff]
      intro a ha
      simp [hmem a (List.take_subset _ _ ha)]
    rw [h1, List.append_nil]
    have h2 : ((dedupUpdated all conn query now).filter
        (fun a => !(a.connection_name == conn) && !(a.connection_name == conn))) =
        (dedupUpdated all conn query now).filter
          (fun a => !(a.connection_name == conn)) := by
      congr 1
      funext a
      exact Bool.and_self _
    rw [h2]
    by_cases hm : all.any (histMatches conn (pyStrip query)) = true
    · have hu : dedupUpdated all conn query now =
          updateFirstTimestamp conn (pyStrip query) now all := by
        simp [dedupUpdated, hm]
      rw [hu, filter_not_updateFirst]
    · have hu : dedupUpdated all conn query now =
          all ++ [QueryHistoryEntry.mk (pyStrip query) now conn] := by
        simp [dedupUpdated]
        intro e he hmm
        have := List.any_eq_true.mpr ⟨e, he, hmm⟩
        exact absurd this hm
      rw [hu, List.filter_append]
      simp [List.filter_cons]
  · rw [hfp, List.take_append_drop]
    exact sortByTimestampDesc_pairwise _

lemma toNat_ofNat_small {n : Nat} (h : n < 55296) : (Char.ofNat n).toNat = n := by
  simp [Char.ofNat, Nat.isValidChar, h, Char.ofNatAux, Char.toNat, UInt32.toNat,
    UInt32.ofNat', BitVec.toNat_ofNatLt]

lemma isPySpace_toUpper (c : Char) : isPySpace (Char.toUpper c) = isPySpace c := by
  by_cases h : c.toNat ≥ 97 ∧ c.toNat ≤ 122
  · have h1 : Char.toUpper c = Char.ofNat (c.toNat - 32) := by
      simp [Char.toUpper, h]
    have h2 : (Char.ofNat (c.toNat - 32)).toNat = c.toNat - 32 :=
      toNat_ofNat_small (by omega)
    have hl : isPySpace (Char.ofNat (c.toNat - 32)) = false := by
      simp only [isPySpace, h2, Bool.or_eq_false_iff, beq_eq_false_iff_ne]
      omega
    have hr : isPySpace c = false := by
      simp only [isPySpace, Bool.or_eq_false_iff, beq_eq_false_iff_ne]
      omega
    rw [h1, hl, hr]
  · have h1 : Char.toUpper c = c := by
      simp [Char.toUpper, h]
    rw [h1]

lemma takeWhile_of_none {α : Type} (p : α → Bool) :
    ∀ l : List α, (∀ x ∈ l, p x = false) → l.takeWhile p = [] := by
  intro l h
  cases l with
  | nil => rfl
  | cons a t =>
    rw [List.takeWhile_cons, if_neg]
    simp [h a (List.mem_cons_self a t)]

lemma takeWhile_eq_self_of_length {α : Type} (p : α → Bool) :
    ∀ l : List α, (l.takeWhile p).length = l.length → l.takeWhile p = l := by
  intro l
  induction l with
  | nil => intro _; rfl
  | cons a t ih =>
    rw [List.takeWhile_cons]
    by_cases hp : p a = true
    · rw [if_pos hp]
      intro hlen
      simp only [List.length_cons, Nat.add_right_cancel_iff] at hlen
      rw [ih hlen]
    · rw [if_neg hp]
      intro hlen
      simp at hlen

lemma takeWhile_not_strip {α : Type} (p : α → Bool) (a : List α) :
    ((a.reverse.dropWhile p).reverse).takeWhile (fun x => !p x) =
      a.takeWhile (fun x => !p x) := by
  have hsplit : a = (a.reverse.dropWhile p).reverse ++ (a.reverse.takeWhile p).reverse := by
    have h0 : a.reverse.takeWhile p ++ a.reverse.dropWhile p = a.reverse :=
      List.takeWhile_append_dropWhile p a.reverse
    have h1 := congrArg List.reverse h0
    rw [List.reverse_append, List.reverse_reverse] at h1
    exact h1.symm
  have hw : ∀ x ∈ (a.reverse.takeWhile p).reverse, (!p x) = false := by
    intro x hx
    have := List.mem_takeWhile_imp (List.mem_reverse.mp hx)
    simp [this]
  conv_rhs => rw [hsplit]
  rw [List.takeWhile_append]
  by_cases hlen : (((a.reverse.dropWhile p).reverse).takeWhile (fun x => !p x)).length =
      ((a.reverse.dropWhile p).reverse).length
  · rw [if_pos hlen, takeWhile_of_none _ _ hw, List.append_nil,
      takeWhile_eq_self_of_length _ _ hlen]
  · rw [if_neg hlen]

lemma queryTypeOf_eq_firstTokenUpper (q : String) :
    queryTypeOf q = firstTokenUpper q := by
  by_cases h : pyStrip q = ""
  · have hL : ((q.data.dropWhile isPySpace).reverse.dropWhile isPySpace).reverse = [] :=
      congrArg String.data h
    have hnil : (q.data.dropWhile isPySpace).reverse.dropWhile isPySpace = [] := by
      simpa using congrArg List.reverse hL
    have hall : ∀ x ∈ q.data.dropWhile isPySpace, isPySpace x = true := by
      intro x hx
      exact List.dropWhile_eq_nil_iff.mp hnil x (List.mem_reverse.mpr hx)
    have htw : (q.data.dropWhile isPySpace).takeWhile (fun c => !isPySpace c) = [] := by
      apply takeWhile_of_none
      intro x hx
      simp [hall x hx]
    rw [queryTypeOf, firstTokenUpper]
    simp only [h, if_pos rfl, htw, List.map_nil]
    rfl
  · rw [queryTypeOf, firstTokenUpper]
    simp only [h, if_neg h]
    have hcomp : (fun c => !isPySpace c) ∘ Char.toUpper = fun c => !isPySpace c := by
      funext c
      simp [Function.comp, isPySpace_toUpper]
    have h1 : ((pyStrip q).data.map Char.toUpper).takeWhile (fun c => !isPySpace c) =
        ((pyStrip q).data.takeWhile (fun c => !isPySpace c)).map Char.toUpper := by
      rw [List.takeWhile_map, hcomp]
    rw [h1]
    have h2 : (pyStrip q).data.takeWhile (fun c => !isPySpace c) =
        (q.data.dropWhile isPySpace).takeWhile (fun c => !isPySpace c) :=
      takeWhile_not_strip isPySpace (q.data.dropWhile isPySpace)
    rw [h2]
    simp

/-- The code's classifier input equals the first whitespace-delimited
token of the query, uppercased. -/
lemma is_select_query_iff (q : String) :
    is_select_query q = true ↔ firstTokenUpper q ∈ selectKeywords := by
  rw [is_select_query, queryTypeOf_eq_firstTokenUpper]
  simp

/-- **C9.** `cmd_query` treats a statement as row-producing exactly when
its first whitespace-delimited token, uppercased, is one of SELECT,
WITH, SHOW, DESCRIBE, EXPLAIN, PRAGMA (an empty or whitespace-only
query is non-row-producing); a reachable execution calls
`execute_query` exactly for row-producing statements and calls
`execute_non_query` for all others. -/
theorem cmd_query_classification (q : String) :
    (is_select_query q = true ↔ firstTokenUpper q ∈ selectKeywords) ∧
    (pyStrip q = "" → is_select_query q = false) ∧
    (∀ (env : CliEnv) (args : QueryArgs) (c0 : ConnectionConfig)
        (adapter : AdapterModel),
      findConfig args.connection env.connections = some c0 →
      args.query = some q → q ≠ "" →
      env.adapterOf (effectiveConfig args c0).db_type = some adapter →
      adapter.connect (effectiveConfig args c0) = .ok () →
      (is_select_query q = true →
        (cmd_query env args).calls = [.connect, .query q] ∨
        (cmd_query env args).calls = [.connect, .query q, .nonQuery q]) ∧
      (is_select_query q = false →
        (cmd_query env args).calls = [.connect, .nonQuery q])) := by
  refine ⟨is_select_query_iff q, ?_, ?_⟩
  · intro h
    rw [is_select_query, queryTypeOf]
    simp only [h, if_pos rfl]
    decide
  · intro env args c0 adapter hfind hq hqne hadap hconn
    have htq : truthy args.query = true := by
      rw [hq]; simp [truthy, hqne]
    have hget : args.query.getD "" = q := by rw [hq]; rfl
    constructor
    · intro hsel
      rcases hx : adapter.executeQuery q with e | p
      · left
        simp [cmd_query, hfind, htq, hget, hadap, hconn, hsel, hx]
      · rcases p with ⟨columns, rows⟩
        by_cases hcols : columns = []
        · right
          rcases hy : adapter.executeNonQuery q with e | affected <;>
            simp [cmd_query, hfind, htq, hget, hadap, hconn, hsel, hx, hy, hcols]
        · left
          simp [cmd_query, hfind, htq, hget, hadap, hconn, hsel, hx, hcols]
    · intro hsel
      rcases hy : adapter.executeNonQuery q with e | affected <;>
        simp [cmd_query, hfind, htq, hget, hadap, hconn, hsel, hy]

/-- Witness for `cmd_query_classification` at a concrete environment. -/
theorem cmd_query_classification_witness :
    (cmd_query
      ⟨[{ name := "c", db_type := "sqlite", file_path := "db.sqlite" }],
       fun _ => none,
       fun _ => some ⟨fun _ => .ok (), fun _ => .ok (["id"], [[some "1"]]),
                      fun _ => .ok 0⟩⟩
      { connection := "c", query := some "SELECT 1" }).calls =
        [.connect, .query "SELECT 1"] ∨
    (cmd_query
      ⟨[{ name := "c", db_type := "sqlite", file_path := "db.sqlite" }],
       fun _ => none,
       fun _ => some ⟨fun _ => .ok (), fun _ => .ok (["id"], [[some "1"]]),
                      fun _ => .ok 0⟩⟩
      { connection := "c", query := some "SELECT 1" }).calls =
        [.connect, .query "SELECT 1", .nonQuery "SELECT 1"] :=
  ((cmd_query_classification "SELECT 1").2.2
    ⟨[{ name := "c", db_type := "sqlite", file_path := "db.sqlite" }],
     fun _ => none,
     fun _ => some ⟨fun _ => .ok (), fun _ => .ok (["id"], [[some "1"]]),
                    fun _ => .ok 0⟩⟩
    { connection := "c", query := some "SELECT 1" }
    { name := "c", db_type := "sqlite", file_path := "db.sqlite" }
    ⟨fun _ => .ok (), fun _ => .ok (["id"], [[some "1"]]), fun _ => .ok 0⟩
    rfl rfl (by decide) rfl rfl).1 (by decide)

/-- **C1.** When the saved connection resolves, a query is provided, the
adapter connects, and a row-producing query executes without error
yielding at least one column, `cmd_query` prints the rows in the chosen
format with the row-count line and exits 0; a missing connection, a
missing query file, a connect (driver) error, or an execution error
each exit 1. -/
theorem cmd_query_exit_codes (env : CliEnv) (args : QueryArgs) :
    (∀ (c0 : ConnectionConfig) (adapter : AdapterModel) (q : String)
        (columns : List String) (rows : List Row),
      findConfig args.connection env.connections = some c0 →
      args.query = some q → q ≠ "" →
      env.adapterOf (effectiveConfig args c0).db_type = some adapter →
      adapter.connect (effectiveConfig args c0) = .ok () →
      is_select_query q = true →
      adapter.executeQuery q = .ok (columns, rows) →
      columns ≠ [] →
      cmd_query env args =
        ⟨0, formatOutput args.format columns rows ++ [rowCountLine rows.length],
         [.connect, .query q]⟩) ∧
    (findConfig args.connection env.connections = none →
      (cmd_query env args).exitCode = 1) ∧
    (∀ (c0 : ConnectionConfig) (f : String),
      findConfig args.connection env.connections = some c0 →
      truthy args.query = false → args.file = some f → f ≠ "" →
      env.files f = none →
      (cmd_query env args).exitCode = 1) ∧
    (∀ (c0 : ConnectionConfig) (adapter : AdapterModel) (q : String)
        (e : PyErr),
      findConfig args.connection env.connections = some c0 →
      args.query = some q → q ≠ "" →
      env.adapterOf (effectiveConfig args c0).db_type = some adapter →
      adapter.connect (effectiveConfig args c0) = .error e →
      (cmd_query env args).exitCode = 1) ∧
    (∀ (c0 : ConnectionConfig) (adapter : AdapterModel) (q : String)
        (e : PyErr),
      findConfig args.connection env.connections = some c0 →
      args.query = some q → q ≠ "" →
      env.adapterOf (effectiveConfig args c0).db_type = some adapter →
      adapter.connect (effectiveConfig args c0) = .ok () →
      is_select_query q = true →
      adapter.executeQuery q = .error e →
      (cmd_query env args).exitCode = 1) := by
  refine ⟨?_, ?_, ?_, ?_, ?_⟩
  · intro c0 adapter q columns rows hfind hq hqne hadap hconn hsel hexec hcols
    have htq : truthy args.query = true := by
      rw [hq]; simp [truthy, hqne]
    have hget : args.query.getD "" = q := by rw [hq]; rfl
    simp [cmd_query, hfind, htq, hget, hadap, hconn, hsel, hexec, hcols]
  · intro hfind
    simp [cmd_query, hfind]
  · intro c0 f hfind htq hfile hfne hmiss
    have hgf : args.file.getD "" = f := by rw [hfile]; rfl
    have htf : truthy args.file = true := by
      rw [hfile]; simp [truthy, hfne]
    simp [cmd_query, hfind, htq, htf, hgf, hmiss]
  · intro c0 adapter q e hfind hq hqne hadap hconn
    have htq : truthy args.query = true := by
      rw [hq]; simp [truthy, hqne]
    have hget : args.query.getD "" = q := by rw [hq]; rfl
    simp [cmd_query, hfind, htq, hget, hadap, hconn]
  · intro c0 adapter q e hfind hq hqne hadap hconn hsel hexec
    have htq : truthy args.query = true := by
      rw [hq]; simp [truthy, hqne]
    have hget : args.query.getD "" = q := by rw [hq]; rfl
    simp [cmd_query, hfind, htq, hget, hadap, hconn, hsel, hexec]

/-- Witness for `cmd_query_exit_codes`: a seeded three-row store printed
in the default table format with exit code 0, and a missing connection
with exit code 1. -/
theorem cmd_query_exit_codes_witness :
    cmd_query
      ⟨[{ name := "c", db_type := "sqlite", file_path := "db.sqlite" }],
       fun _ => none,
       fun _ => some ⟨fun _ => .ok (),
         fun _ => .ok (["id", "name"],
           [[some "1", some "Alice"], [some "2", some "Bob"],
            [some "3", some "Charlie"]]),
         fun _ => .ok 0⟩⟩
      { connection := "c", query := some "SELECT * FROM test_users ORDER BY id" } =
      ⟨0, formatOutput "table" ["id", "name"]
            [[some "1", some "Alice"], [some "2", some "Bob"],
             [some "3", some "Charlie"]] ++ [rowCountLine 3],
       [.connect, .query "SELECT * FROM test_users ORDER BY id"]⟩ ∧
    (cmd_query
      ⟨[], fun _ => none, fun _ => none⟩
      { connection := "missing", query := some "SELECT 1" }).exitCode = 1 :=
  ⟨(cmd_query_exit_codes
      ⟨[{ name := "c", db_type := "sqlite", file_path := "db.sqlite" }],
       fun _ => none,
       fun _ => some ⟨fun _ => .ok (),
         fun _ => .ok (["id", "name"],
           [[some "1", some "Alice"], [some "2", some "Bob"],
            [some "3", some "Charlie"]]),
         fun _ => .ok 0⟩⟩
      { connection := "c", query := some "SELECT * FROM test_users ORDER BY id" }).1
    { name := "c", db_type := "sqlite", file_path := "db.sqlite" }
    ⟨fun _ => .ok (),
     fun _ => .ok (["id", "name"],
       [[some "1", some "Alice"], [some "2", some "Bob"],
        [some "3", some "Charlie"]]),
     fun _ => .ok 0⟩
    "SELECT * FROM test_users ORDER BY id"
    ["id", "name"]
    [[some "1", some "Alice"], [some "2", some "Bob"], [some "3", some "Charlie"]]
    rfl rfl (by decide) rfl rfl (by decide) rfl (by decide),
   (cmd_query_exit_codes ⟨[], fun _ => none, fun _ => none⟩
      { connection := "missing", query := some "SELECT 1" }).2.1 rfl⟩

lemma entryFromDict_cases (a : RawHistEntry) :
    entryFromDict a = .error .keyError ∨ ∃ v, entryFromDict a = .ok v := by
  rcases a with ⟨oq, ot, oc⟩
  cases oq <;> cases ot <;> cases oc <;> simp [entryFromDict]

lemma mapEntries_keyError :
    ∀ (l : List RawHistEntry) (d : RawHistEntry), d ∈ l →
      (d.query? = none ∨ d.timestamp? = none) →
      mapEntries l = .error PyExc.keyError := by
  intro l
  induction l with
  | nil => intro d hd; cases hd
  | cons a rest ih =>
    intro d hd hmiss
    rcases List.mem_cons.mp hd with rfl | hd'
    · rcases d with ⟨oq, ot, oc⟩
      rcases hmiss with h | h <;> subst h <;>
        first
        | (cases ot <;> cases oc <;> simp [mapEntries, entryFromDict])
        | (cases oq <;> cases oc <;> simp [mapEntries, entryFromDict])
    · rcases entryFromDict_cases a with ha | ⟨v, ha⟩
      · simp [mapEntries, ha]
      · simp [mapEntries, ha, ih d hd' hmiss]

/-- **C10.** An absent or malformed store file yields the empty default
from `load_connections`, `load_query_history` and `load_settings`
without any exception escaping; a history record for the requested
connection that lacks a required key makes `load_query_history` return
the empty list (its `KeyError` is caught). -/
theorem load_store_defaults :
    (∀ st : StoreFile (List ConnectionConfig),
      st = .missing ∨ st = .malformed → load_connections st = .ok []) ∧
    (∀ (st : StoreFile (List RawHistEntry)) (name : String),
      st = .missing ∨ st = .malformed → load_query_history st name = .ok []) ∧
    (∀ st : StoreFile (List (String × String)),
      st = .missing ∨ st = .malformed → load_settings st = .ok []) ∧
    (∀ (data : List RawHistEntry) (name : String) (d : RawHistEntry),
      d ∈ data → rawConnMatches name d = true →
      (d.query? = none ∨ d.timestamp? = none) →
      load_query_history (.parsed data) name = .ok []) := by
  refine ⟨?_, ?_, ?_, ?_⟩
  · rintro st (rfl | rfl) <;> rfl
  · rintro st name (rfl | rfl) <;> rfl
  · rintro st (rfl | rfl) <;> rfl
  · intro data name d hd hmatch hmiss
    have hmem : d ∈ data.filter (rawConnMatches name) :=
      List.mem_filter.mpr ⟨hd, hmatch⟩
    have hm := mapEntries_keyError _ d hmem hmiss
    simp [load_query_history, hm, catchHistErr]

/-- Witness for `load_store_defaults` at concrete store states. -/
theorem load_store_defaults_witness :
    load_connections .missing = .ok [] ∧
    load_query_history (.parsed [⟨none, some "2024", some "c"⟩]) "c" = .ok [] :=
  ⟨load_store_defaults.1 .missing (Or.inl rfl),
   load_store_defaults.2.2.2 [⟨none, some "2024", some "c"⟩] "c"
     ⟨none, some "2024", some "c"⟩ (by simp) (by decide) (Or.inl rfl)⟩

/-- **C3 (counterexample).** With the cancellation flag unset, a raised
`RuntimeError` whose message merely contains "cancelled" is silently
passed over by `_run_query_async` instead of being reported as a
genuine failure. -/
theorem uncancelled_runtime_error_swallowed :
    runQueryErrorHandling false
      (.raises (.runtimeError "connection cancelled by peer")) =
      .nothing := by
  decide

/-- **C3 (amended).** With the flag set before an error is raised, the
error is always swallowed (never displayed); with the flag unset, the
error is displayed as a genuine failure unless it is a `RuntimeError`
whose lowercased message contains "cancelled", which the UI passes
over as an already-handled cancellation. -/
theorem cancellation_flag_disambiguation :
    (∀ e : PyException, runQueryErrorHandling true (.raises e) = .nothing) ∧
    (∀ msg : String, strContains (pyLower msg) "cancelled" = false →
      runQueryErrorHandling false (.raises (.runtimeError msg)) = .errorShown msg) ∧
    (∀ msg : String,
      runQueryErrorHandling false (.raises (.otherError msg)) = .errorShown msg) ∧
    (∀ msg : String, strContains (pyLower msg) "cancelled" = true →
      runQueryErrorHandling false (.raises (.runtimeError msg)) = .nothing) := by
  have hc : strContains (pyLower "Query was cancelled") "cancelled" = true := by
    decide
  refine ⟨?_, ?_, ?_, ?_⟩
  · intro e
    simp [runQueryErrorHandling, cancellableExecute, mixinHandleError, hc]
  · intro msg h
    simp [runQueryErrorHandling, cancellableExecute, mixinHandleError, h]
  · intro msg
    simp [runQueryErrorHandling, cancellableExecute, mixinHandleError]
  · intro msg h
    simp [runQueryErrorHandling, cancellableExecute, mixinHandleError, h]

/-- Witness for `cancellation_flag_disambiguation` at concrete errors. -/
theorem cancellation_flag_disambiguation_witness :
    runQueryErrorHandling true (.raises (.otherError "boom")) = .nothing ∧
    runQueryErrorHandling false (.raises (.runtimeError "syntax error")) =
      .errorShown "syntax error" :=
  ⟨cancellation_flag_disambiguation.1 (.otherError "boom"),
   cancellation_flag_disambiguation.2.1 "syntax error" (by decide)⟩

end Sqlit
